import Mathlib

/-!
# Verification of the EventHive backend (src/backend/server.py)

Shallow embedding of the backend's data model and request handlers as pure
Lean functions over an explicit document-store state, together with proofs
of the specification's claims about them.

Modelling conventions:
* The MongoDB collections (`db.users`, `db.events`, `db.registrations`) are
  lists inside a `Store` structure; `find_one` is `List.find?`,
  `insert_one` appends, `delete_one` is `List.eraseP` (removes the first
  match), `delete_many` is a filter, `update_one` updates the first match.
* A Python `HTTPException(status, detail)` raised by a handler is an
  `Except`-error of kind `PyErr.http`; an uncaught `ValueError` coming out
  of the bcrypt library is `PyErr.valueError`.
* bcrypt: string hash values are partitioned into well-formed bcrypt
  strings (carrying a salt and a digest) and everything else
  (`HashStr.malformed`).  The one-way digest is modelled as an injective
  (collision-free) function of salt and password; `bcrypt.checkpw` raises
  `ValueError "Invalid salt"` on a malformed hash exactly as the library
  does, and otherwise compares the recomputed digest.
* JWT: a token is its decoded shape, a claim payload plus a signature byte
  string; the HMAC is an arbitrary function parameter `mac`.  `jwt.decode`
  verifies the signature first and then the `exp` claim against the
  current time (seconds), exactly PyJWT's order.  Fresh ids, salts and
  timestamps, produced at runtime by `uuid4`, `gensalt` and `now()`, are
  explicit parameters of the handlers.
-/

/-- A Python `HTTPException` as raised by the handlers: an HTTP status code
plus a human-readable detail message. -/
structure HTTPExc where
  status : Nat
  detail : String
  deriving DecidableEq, Repr

/-- An error escaping a handler: either an `HTTPException` it raised on
purpose, or an uncaught `ValueError` propagating from library code. -/
inductive PyErr where
  | http : HTTPExc → PyErr
  | valueError : String → PyErr
  deriving DecidableEq, Repr

/-- `raise HTTPException(status_code=status, detail=detail)`. -/
def httpErr (status : Nat) (detail : String) : PyErr :=
  .http { status := status, detail := detail }

/-- A stored bcrypt hash value, as a Python string: either a well-formed
bcrypt string `$2b$12$<salt><digest>` (represented by its salt and digest),
or any other string, which bcrypt cannot parse. -/
inductive HashStr where
  | wellFormed : Nat → String → HashStr
  | malformed : String → HashStr
  deriving DecidableEq, Repr

/-- The one-way digest inside a bcrypt hash, modelled as an injective
(collision-free) function of the salt and the password. -/
def bcrypt_digest (salt : Nat) (password : String) : String :=
  toString salt ++ ":" ++ password

/-- `hash_password` (server.py:108): `bcrypt.hashpw(password, bcrypt.gensalt())`
with the freshly generated random salt as an explicit parameter. -/
def hash_password (salt : Nat) (password : String) : HashStr :=
  .wellFormed salt (bcrypt_digest salt password)

/-- `bcrypt.checkpw`: raises `ValueError("Invalid salt")` when the hash
string cannot be parsed as a bcrypt hash, otherwise recomputes the digest
with the embedded salt and compares. -/
def bcrypt_checkpw (password : String) (hashed : HashStr) : Except String Bool :=
  match hashed with
  | .malformed _ => .error "Invalid salt"
  | .wellFormed salt digest => .ok (bcrypt_digest salt password == digest)

/-- `verify_password` (server.py:112): delegates directly to
`bcrypt.checkpw` with no error handling, so library errors propagate. -/
def verify_password (password : String) (hashed : HashStr) : Except String Bool :=
  bcrypt_checkpw password hashed

/-- `JWT_EXPIRATION_HOURS = 24` (server.py:27). -/
def JWT_EXPIRATION_HOURS : Nat := 24

/-- The JWT claim payload built by `create_token` (server.py:118):
`{'user_id': ..., 'email': ..., 'exp': ...}` with `exp` a POSIX timestamp
in seconds. -/
structure TokenPayload where
  user_id : String
  email : String
  exp : Nat
  deriving DecidableEq, Repr

/-- A JWT in decoded shape: the claim payload plus the signature bytes
(the third dot-separated segment of the encoded string). -/
structure Token where
  payload : TokenPayload
  sig : List Nat
  deriving DecidableEq, Repr

/-- `create_token` (server.py:116): signs `{user_id, email, exp = now + 24h}`
with the server secret.  `mac` is the HS256 keyed MAC. -/
def create_token (mac : String → TokenPayload → List Nat) (secret : String)
    (now : Nat) (user_id email : String) : Token :=
  let payload : TokenPayload :=
    { user_id := user_id, email := email, exp := now + JWT_EXPIRATION_HOURS * 3600 }
  { payload := payload, sig := mac secret payload }

/-- PyJWT's two rejection reasons surfaced in `decode_token`:
`jwt.ExpiredSignatureError` and `jwt.InvalidTokenError`. -/
inductive JwtError where
  | expiredSignature
  | invalidToken
  deriving DecidableEq, Repr

/-- `jwt.decode(token, JWT_SECRET, algorithms=[JWT_ALGORITHM])`: verifies
the signature first (any mismatch is `InvalidTokenError`), then rejects
with `ExpiredSignatureError` when the `exp` claim lies strictly in the
past. -/
def jwt_decode (mac : String → TokenPayload → List Nat) (secret : String)
    (now : Nat) (t : Token) : Except JwtError TokenPayload :=
  if t.sig = mac secret t.payload then
    if t.payload.exp < now then .error .expiredSignature
    else .ok t.payload
  else .error .invalidToken

/-- `decode_token` (server.py:125): translates the two PyJWT errors into
two distinct 401 `HTTPException`s. -/
def decode_token (mac : String → TokenPayload → List Nat) (secret : String)
    (now : Nat) (t : Token) : Except PyErr TokenPayload :=
  match jwt_decode mac secret now t with
  | .ok payload => .ok payload
  | .error .expiredSignature => .error (httpErr 401 "Token has expired")
  | .error .invalidToken => .error (httpErr 401 "Invalid token")

/-- `get_current_user` (server.py:134), the optional-auth dependency:
`None` when no bearer credential is presented, `None` when `decode_token`
raises, otherwise the decoded payload. -/
def get_current_user (mac : String → TokenPayload → List Nat) (secret : String)
    (now : Nat) (credentials : Option Token) : Option TokenPayload :=
  match credentials with
  | none => none
  | some c =>
    match decode_token mac secret now c with
    | .ok payload => some payload
    | .error _ => none

/-- `require_auth` (server.py:144), the required-auth dependency: 401 when
no bearer credential is presented, otherwise `decode_token`'s result
(errors propagate to the caller). -/
def require_auth (mac : String → TokenPayload → List Nat) (secret : String)
    (now : Nat) (credentials : Option Token) : Except PyErr TokenPayload :=
  match credentials with
  | none => .error (httpErr 401 "Authentication required")
  | some c => decode_token mac secret now c

/-- The `User` document (server.py:71). -/
structure User where
  id : String
  email : String
  name : String
  password_hash : HashStr
  created_at : String
  deriving DecidableEq, Repr

/-- The `Event` document (server.py:36). -/
structure Event where
  id : String
  name : String
  date : String
  location : String
  description : String
  created_at : String
  deriving DecidableEq, Repr

/-- The `Registration` document (server.py:57); `user_id` is set only when
the caller held a valid token at registration time. -/
structure Registration where
  id : String
  event_id : String
  name : String
  email : String
  user_id : Option String
  registered_at : String
  deriving DecidableEq, Repr

/-- The three MongoDB collections used by the handlers. -/
structure Store where
  users : List User
  events : List Event
  registrations : List Registration
  deriving DecidableEq, Repr

/-- Mongo `delete_one(filter)`: the number of deleted documents (0 or 1)
and the collection with the first match removed. -/
def delete_one (p : α → Bool) (l : List α) : Nat × List α :=
  (if l.any p then 1 else 0, l.eraseP p)

/-- Mongo `update_one(filter, {"$set": ...})`: applies `f` to the first
document matching `p`, leaves everything else unchanged. -/
def update_one (p : α → Bool) (f : α → α) : List α → List α
  | [] => []
  | x :: xs => if p x then f x :: xs else x :: update_one p f xs

/-- Request body of `POST /auth/signup` (server.py:79). -/
structure UserSignup where
  email : String
  name : String
  password : String
  deriving DecidableEq, Repr

/-- Response of signup/login (server.py:88): the user's identity plus a
bearer token. -/
structure UserResponse where
  id : String
  email : String
  name : String
  token : Token
  deriving DecidableEq, Repr

/-- `signup` (server.py:152): `Conflict` when a user with the email already
exists (the store is left untouched); otherwise inserts one new `User`
with a freshly hashed password and returns its identity with a freshly
issued token.  `fresh_id`, `salt`, `now` and `created_at` stand for the
values produced at runtime by `uuid4`, `gensalt` and `now()`. -/
def signup (mac : String → TokenPayload → List Nat) (secret : String)
    (s : Store) (user_data : UserSignup)
    (fresh_id : String) (salt : Nat) (now : Nat) (created_at : String) :
    Except PyErr UserResponse × Store :=
  match s.users.find? (fun u => u.email == user_data.email) with
  | some _ => (.error (httpErr 400 "Email already registered"), s)
  | none =>
    let user : User :=
      { id := fresh_id, email := user_data.email, name := user_data.name,
        password_hash := hash_password salt user_data.password,
        created_at := created_at }
    let token := create_token mac secret now user.id user.email
    (.ok { id := user.id, email := user.email, name := user.name, token := token },
     { s with users := s.users ++ [user] })

/-- `login` (server.py:180): looks up by email, verifies the password
against the stored hash, and answers the same 401 both when no user is
found and when verification returns false; on success issues a fresh
token.  A `ValueError` out of `verify_password` would propagate uncaught. -/
def login (mac : String → TokenPayload → List Nat) (secret : String)
    (s : Store) (email password : String) (now : Nat) :
    Except PyErr UserResponse :=
  match s.users.find? (fun u => u.email == email) with
  | none => .error (httpErr 401 "Invalid credentials")
  | some user =>
    match verify_password password user.password_hash with
    | .error msg => .error (.valueError msg)
    | .ok false => .error (httpErr 401 "Invalid credentials")
    | .ok true =>
      .ok { id := user.id, email := user.email, name := user.name,
            token := create_token mac secret now user.id user.email }

/-- Request body of `PUT /auth/profile` (server.py:94): both fields
optional; absent fields are not applied. -/
structure UserProfileUpdate where
  name : Option String
  email : Option String
  deriving DecidableEq, Repr

/-- The `$set` document built by `update_profile`, applied to a user:
exactly the present patch fields overwrite, everything else is kept. -/
def apply_profile_patch (patch : UserProfileUpdate) (u : User) : User :=
  { u with name := patch.name.getD u.name, email := patch.email.getD u.email }

/-- The public projection returned by `/auth/me` and `/auth/profile`
(`find_one(..., {"_id": 0, "password_hash": 0})`). -/
structure UserPublic where
  id : String
  email : String
  name : String
  created_at : String
  deriving DecidableEq, Repr

/-- Drop the `password_hash` field, as the `{"password_hash": 0}`
projection does. -/
def User.toPublic (u : User) : UserPublic :=
  { id := u.id, email := u.email, name := u.name, created_at := u.created_at }

/-- `update_profile` (server.py:204): 400 on an empty patch; 400 when the
patch changes the email to one held by a different user (`id $ne` the
caller); otherwise `$set`s exactly the present fields on the caller's user
document and returns the re-fetched document without its password hash. -/
def update_profile (s : Store) (patch : UserProfileUpdate)
    (current_user : TokenPayload) :
    Except PyErr (Option UserPublic) × Store :=
  if patch.name = none ∧ patch.email = none then
    (.error (httpErr 400 "No data to update"), s)
  else
    let emailTaken : Bool :=
      match patch.email with
      | some e => (s.users.find?
          (fun u => u.email == e && u.id != current_user.user_id)).isSome
      | none => false
    if emailTaken then
      (.error (httpErr 400 "Email already in use"), s)
    else
      let users' := update_one (fun u => u.id == current_user.user_id)
        (apply_profile_patch patch) s.users
      (.ok ((users'.find? (fun u => u.id == current_user.user_id)).map User.toPublic),
       { s with users := users' })

/-- `get_event` (server.py:240): the event with the given id, or 404. -/
def get_event (s : Store) (event_id : String) : Except PyErr Event :=
  match s.events.find? (fun e => e.id == event_id) with
  | some e => .ok e
  | none => .error (httpErr 404 "Event not found")

/-- `delete_event` (server.py:270): `delete_one` on events, 404 when
nothing was deleted, otherwise `delete_many` on the registrations whose
`event_id` matches. -/
def delete_event (s : Store) (event_id : String) :
    Except PyErr String × Store :=
  let r := delete_one (fun e => e.id == event_id) s.events
  if r.1 = 0 then
    (.error (httpErr 404 "Event not found"), { s with events := r.2 })
  else
    (.ok "Event deleted successfully",
     { s with events := r.2,
              registrations := s.registrations.filter
                (fun reg => reg.event_id != event_id) })

/-- Request body of `POST /register` (server.py:66). -/
structure RegistrationCreate where
  event_id : String
  name : String
  email : String
  deriving DecidableEq, Repr

/-- `register_for_event` (server.py:283): 404 when the event does not
exist; 400 when a registration with the same `(event_id, email)` pair
already exists; otherwise inserts one registration, tagged with the
caller's `user_id` only when a valid token resolved to an identity. -/
def register_for_event (s : Store) (current_user : Option TokenPayload)
    (inp : RegistrationCreate) (fresh_id registered_at : String) :
    Except PyErr Registration × Store :=
  match s.events.find? (fun e => e.id == inp.event_id) with
  | none => (.error (httpErr 404 "Event not found"), s)
  | some _ =>
    match s.registrations.find?
        (fun r => r.event_id == inp.event_id && r.email == inp.email) with
    | some _ => (.error (httpErr 400 "Already registered for this event"), s)
    | none =>
      let registration : Registration :=
        { id := fresh_id, event_id := inp.event_id, name := inp.name,
          email := inp.email,
          user_id := current_user.map TokenPayload.user_id,
          registered_at := registered_at }
      (.ok registration,
       { s with registrations := s.registrations ++ [registration] })

/-- `cancel_registration` (server.py:334): 404 when no registration has the
id; 403 when the stored `user_id` (possibly absent) differs from the
caller's; otherwise `delete_one` on the registration. -/
def cancel_registration (s : Store) (registration_id : String)
    (current_user : TokenPayload) : Except PyErr String × Store :=
  match s.registrations.find? (fun r => r.id == registration_id) with
  | none => (.error (httpErr 404 "Registration not found"), s)
  | some registration =>
    if registration.user_id = some current_user.user_id then
      (.ok "Registration cancelled successfully",
       { s with registrations :=
          (delete_one (fun r => r.id == registration_id) s.registrations).2 })
    else
      (.error (httpErr 403 "Not authorized to cancel this registration"), s)

/-- The `(event_id, email)` uniqueness invariant on the registrations
collection (spec §3). -/
def pairUnique (l : List Registration) : Prop :=
  l.Pairwise (fun a b => ¬(a.event_id = b.event_id ∧ a.email = b.email))

/-! ## General lemmas about the store primitives -/

theorem update_one_split (p : α → Bool) (f : α → α) :
    ∀ {l : List α} {a : α}, l.find? p = some a →
      ∃ l₁ l₂, l = l₁ ++ a :: l₂ ∧ (∀ x ∈ l₁, ¬ p x) ∧
        update_one p f l = l₁ ++ f a :: l₂ := by
  intro l
  induction l with
  | nil => intro a h; simp at h
  | cons x xs ih =>
    intro a h
    by_cases hp : p x
    · rw [List.find?_cons_of_pos _ hp] at h
      obtain rfl : x = a := by injection h
      exact ⟨[], xs, by simp [update_one, hp]⟩
    · rw [List.find?_cons_of_neg _ hp] at h
      obtain ⟨l₁, l₂, hl, hnot, hupd⟩ := ih h
      refine ⟨x :: l₁, l₂, by simp [hl], ?_, ?_⟩
      · intro y hy
        rcases List.mem_cons.mp hy with rfl | hy
        · exact hp
        · exact hnot y hy
      · simp [update_one, hp, hupd]

theorem update_one_of_find?_eq_none (p : α → Bool) (f : α → α) :
    ∀ {l : List α}, l.find? p = none → update_one p f l = l := by
  intro l
  induction l with
  | nil => intro _; rfl
  | cons x xs ih =>
    intro h
    rw [List.find?_eq_none] at h
    have hx : ¬ p x := h x (List.mem_cons_self x xs)
    rw [update_one, if_neg hx, ih]
    rw [List.find?_eq_none]
    exact fun y hy => h y (List.mem_cons_of_mem x hy)

theorem find?_eraseP_eq_none {α β : Type} [DecidableEq β] (g : α → β) (v : β) :
    ∀ (l : List α), (l.map g).Nodup →
      (l.eraseP (fun a => g a == v)).find? (fun a => g a == v) = none := by
  intro l
  induction l with
  | nil => intro _; rfl
  | cons x xs ih =>
    intro hnd
    rw [List.map_cons, List.nodup_cons] at hnd
    by_cases hp : (g x == v) = true
    · rw [List.eraseP_cons_of_pos (p := fun a => g a == v) hp, List.find?_eq_none]
      intro a ha hav
      exact hnd.1 (by
        rw [show g x = v from beq_iff_eq.mp hp, ← beq_iff_eq.mp hav]
        exact List.mem_map_of_mem g ha)
    · rw [List.eraseP_cons_of_neg (p := fun a => g a == v) hp,
        List.find?_cons_of_neg (p := fun a => g a == v) _ hp]
      exact ih hnd.2

theorem set_ne_of_getElem_ne {α : Type} {l : List α} {i : Nat} {b : α}
    (hi : i < l.length) (hb : b ≠ l[i]) : l.set i b ≠ l := by
  intro heq
  have h1 : (l.set i b)[i]? = some b := List.getElem?_set_self (by simpa using hi)
  rw [heq, List.getElem?_eq_getElem hi] at h1
  exact hb (by injection h1 with h2; exact h2.symm)

/-! ## Claims -/

/-- C2: token validation checks signature integrity first and fails closed:
a token whose signature segment has any altered byte is rejected as
`Invalid` (at every validation time, in particular also when the token is
already expired), a genuine token validated after its issue-time + 24h is
rejected as `Expired`, and the two failure kinds are distinct. -/
theorem token_signature_first_expiry_kinds
    (mac : String → TokenPayload → List Nat) (secret uid email : String)
    (issue now : Nat) (i : Nat) (b : Nat)
    (hi : i < (create_token mac secret issue uid email).sig.length)
    (hb : b ≠ (create_token mac secret issue uid email).sig[i]) :
    decode_token mac secret now
        { payload := (create_token mac secret issue uid email).payload,
          sig := (create_token mac secret issue uid email).sig.set i b }
      = .error (httpErr 401 "Invalid token")
    ∧ (issue + JWT_EXPIRATION_HOURS * 3600 < now →
        decode_token mac secret now (create_token mac secret issue uid email)
          = .error (httpErr 401 "Token has expired"))
    ∧ httpErr 401 "Token has expired" ≠ httpErr 401 "Invalid token" := by
  have hsig : (create_token mac secret issue uid email).sig
      = mac secret (create_token mac secret issue uid email).payload := rfl
  refine ⟨?_, ?_, by decide⟩
  · have hne : (create_token mac secret issue uid email).sig.set i b
        ≠ mac secret (create_token mac secret issue uid email).payload := by
      rw [← hsig]; exact set_ne_of_getElem_ne hi hb
    simp only [decode_token, jwt_decode]
    rw [if_neg hne]
  · intro hlt
    have hexp : (create_token mac secret issue uid email).payload.exp < now := hlt
    simp only [decode_token, jwt_decode]
    rw [if_pos hsig, if_pos hexp]

/-- C2 witness: a concrete MAC, secret and token; byte 0 of the signature
altered gives `Invalid token`, and the intact token after 25 hours gives
`Token has expired`. -/
theorem token_signature_first_expiry_kinds_witness :
    decode_token (fun _ _ => [0, 1]) "secret" 90000
        { payload := (create_token (fun _ _ => [0, 1]) "secret" 0 "u" "e").payload,
          sig := (create_token (fun _ _ => [0, 1]) "secret" 0 "u" "e").sig.set 0 5 }
      = .error (httpErr 401 "Invalid token")
    ∧ decode_token (fun _ _ => [0, 1]) "secret" 90000
        (create_token (fun _ _ => [0, 1]) "secret" 0 "u" "e")
      = .error (httpErr 401 "Token has expired") := by
  have h := token_signature_first_expiry_kinds (fun _ _ => [0, 1]) "secret" "u" "e"
    0 90000 0 5 (by decide) (by decide)
  exact ⟨h.1, h.2.1 (by decide)⟩

/-- C3 counterexample: `verify_password` on a malformed hash string
propagates bcrypt's `ValueError("Invalid salt")` instead of returning
`false`. -/
theorem verify_password_raises_on_malformed_hash :
    verify_password "password" (HashStr.malformed "not-a-bcrypt-hash")
      = .error "Invalid salt"
    ∧ verify_password "password" (HashStr.malformed "not-a-bcrypt-hash")
      ≠ .ok false := by
  refine ⟨rfl, ?_⟩
  intro h
  exact Except.noConfusion h

/-- C3 amended: `verify_password` is a bare delegation to `bcrypt.checkpw`
with no error handling: on a well-formed hash it returns the digest
comparison, but on any malformed hash it raises (propagates
`ValueError("Invalid salt")`) rather than returning `false`. -/
theorem verify_password_behaviour (password : String) (h : HashStr) :
    (∀ raw, h = HashStr.malformed raw →
      verify_password password h = .error "Invalid salt")
    ∧ (∀ salt digest, h = HashStr.wellFormed salt digest →
      verify_password password h = .ok (bcrypt_digest salt password == digest)) := by
  constructor
  · intro raw hraw
    subst hraw
    rfl
  · intro salt digest hwf
    subst hwf
    rfl

/-- C3 witness: the amended behaviour at a malformed and at a genuine
hash. -/
theorem verify_password_behaviour_witness :
    verify_password "pw" (HashStr.malformed "garbage") = .error "Invalid salt"
    ∧ verify_password "pw" (hash_password 7 "pw") = .ok true := by
  constructor
  · exact (verify_password_behaviour "pw" (HashStr.malformed "garbage")).1 "garbage" rfl
  · have h := (verify_password_behaviour "pw" (hash_password 7 "pw")).2
      7 (bcrypt_digest 7 "pw") rfl
    rw [h]
    simp

/-- C8: in optional-auth mode (`get_current_user`) every request resolves
without raising: no presented credential resolves to no identity, any
credential whose validation fails (bad signature, malformed, expired)
resolves to no identity, and an identity is produced exactly for a
correctly signed, unexpired token. -/
theorem optional_auth_never_raises
    (mac : String → TokenPayload → List Nat) (secret : String) (now : Nat) :
    get_current_user mac secret now none = none
    ∧ (∀ t e, decode_token mac secret now t = .error e →
        get_current_user mac secret now (some t) = none)
    ∧ (∀ t p, get_current_user mac secret now (some t) = some p ↔
        (t.sig = mac secret t.payload ∧ now ≤ t.payload.exp ∧ p = t.payload)) := by
  refine ⟨rfl, ?_, ?_⟩
  · intro t e h
    simp [get_current_user, h]
  · intro t p
    simp only [get_current_user, decode_token, jwt_decode]
    by_cases hs : t.sig = mac secret t.payload
    · rw [if_pos hs]
      by_cases hexp : t.payload.exp < now
      · rw [if_pos hexp]
        simp only [reduceCtorEq, false_iff, not_and]
        intro _ hle
        omega
      · rw [if_neg hexp]
        simp only [Option.some.injEq]
        constructor
        · intro hp
          exact ⟨hs, Nat.not_lt.mp hexp, hp.symm⟩
        · intro ⟨_, _, hp⟩
          exact hp.symm
    · rw [if_neg hs]
      simp only [reduceCtorEq, false_iff, not_and]
      intro hs'
      exact absurd hs' hs

/-- C8 witness: no credential, and a credential with a wrong signature,
both resolve to no identity. -/
theorem optional_auth_never_raises_witness :
    get_current_user (fun _ _ => [3]) "k" 10 none = none
    ∧ get_current_user (fun _ _ => [3]) "k" 10
        (some { payload := { user_id := "u", email := "e", exp := 99 },
                sig := [4] }) = none := by
  have h := optional_auth_never_raises (fun _ _ => [3]) "k" 10
  exact ⟨h.1, h.2.1 _ (httpErr 401 "Invalid token") rfl⟩

/-- C1: `login(email, password)` succeeds — returning the user's identity
and a token freshly created at the current time — exactly when a user with
that email is found in the store and `verify_password` returns true
against the stored hash; both the no-such-user case and the
wrong-password case fail with the same 401 `Invalid credentials` error. -/
theorem login_iff_user_and_password
    (mac : String → TokenPayload → List Nat) (secret : String)
    (s : Store) (email password : String) (now : Nat) :
    ((∃ r, login mac secret s email password now = .ok r) ↔
      ∃ u, s.users.find? (fun v => v.email == email) = some u ∧
        verify_password password u.password_hash = .ok true)
    ∧ (s.users.find? (fun v => v.email == email) = none →
        login mac secret s email password now
          = .error (httpErr 401 "Invalid credentials"))
    ∧ (∀ u, s.users.find? (fun v => v.email == email) = some u →
        verify_password password u.password_hash = .ok false →
        login mac secret s email password now
          = .error (httpErr 401 "Invalid credentials"))
    ∧ (∀ u, s.users.find? (fun v => v.email == email) = some u →
        verify_password password u.password_hash = .ok true →
        login mac secret s email password now
          = .ok { id := u.id, email := u.email, name := u.name,
                  token := create_token mac secret now u.id u.email }) := by
  cases hfind : s.users.find? (fun v => v.email == email) with
  | none =>
    refine ⟨by simp [login, hfind], fun _ => by simp [login, hfind], ?_, ?_⟩
    · intro u hu
      exact Option.noConfusion hu
    · intro u hu
      exact Option.noConfusion hu
  | some u =>
    refine ⟨?_, ?_, ?_, ?_⟩
    · cases hv : verify_password password u.password_hash with
      | error msg => simp [login, hfind, hv]
      | ok b =>
        cases b with
        | false => simp [login, hfind, hv]
        | true => simp [login, hfind, hv]
    · intro h
      exact Option.noConfusion h
    · intro u' hu' hv'
      obtain rfl : u = u' := by injection hu'
      simp [login, hfind, hv']
    · intro u' hu' hv'
      obtain rfl : u = u' := by injection hu'
      simp [login, hfind, hv']

/-- C1 witness: a store with one user whose password is "pw"; login with
the right password succeeds with that identity and a fresh token. -/
theorem login_iff_user_and_password_witness :
    login (fun _ _ => [1]) "k"
      { users := [{ id := "u1", email := "a@x.com", name := "Ann",
                    password_hash := hash_password 7 "pw", created_at := "t0" }],
        events := [], registrations := [] }
      "a@x.com" "pw" 0
      = .ok { id := "u1", email := "a@x.com", name := "Ann",
              token := create_token (fun _ _ => [1]) "k" 0 "u1" "a@x.com" } := by
  have h := login_iff_user_and_password (fun _ _ => [1]) "k"
    { users := [{ id := "u1", email := "a@x.com", name := "Ann",
                  password_hash := hash_password 7 "pw", created_at := "t0" }],
      events := [], registrations := [] }
    "a@x.com" "pw" 0
  exact h.2.2.2 _ rfl (by simp [verify_password, bcrypt_checkpw, hash_password])

/-- C7: signup with an email already present in the user store (exact
match on the stored value) fails with the 400 `Email already registered`
conflict whatever the other fields are, leaving the store unchanged;
otherwise it appends exactly one new user with a freshly hashed password
and immediately issues a token for it. -/
theorem signup_conflict_or_creates
    (mac : String → TokenPayload → List Nat) (secret : String) (s : Store)
    (user_data : UserSignup) (fresh_id : String) (salt now : Nat)
    (created_at : String) :
    ((∃ u, u ∈ s.users ∧ u.email = user_data.email) →
      signup mac secret s user_data fresh_id salt now created_at
        = (.error (httpErr 400 "Email already registered"), s))
    ∧ ((∀ u, u ∈ s.users → u.email ≠ user_data.email) →
      signup mac secret s user_data fresh_id salt now created_at
        = (.ok { id := fresh_id, email := user_data.email, name := user_data.name,
                 token := create_token mac secret now fresh_id user_data.email },
           { s with users := s.users ++
              [{ id := fresh_id, email := user_data.email, name := user_data.name,
                 password_hash := hash_password salt user_data.password,
                 created_at := created_at }] })) := by
  constructor
  · rintro ⟨u, hu, he⟩
    cases hfind : s.users.find? (fun v => v.email == user_data.email) with
    | none =>
      rw [List.find?_eq_none] at hfind
      exact absurd (by simpa using he) (hfind u hu)
    | some w => simp [signup, hfind]
  · intro hall
    have hfind : s.users.find? (fun v => v.email == user_data.email) = none := by
      rw [List.find?_eq_none]
      intro v hv
      simpa using hall v hv
    simp [signup, hfind]

/-- C7 witness: signup on an empty store creates the one user and issues
its token. -/
theorem signup_conflict_or_creates_witness :
    signup (fun _ _ => [2]) "k" { users := [], events := [], registrations := [] }
      { email := "a@x.com", name := "Ann", password := "pw" } "u1" 7 0 "t0"
      = (.ok { id := "u1", email := "a@x.com", name := "Ann",
               token := create_token (fun _ _ => [2]) "k" 0 "u1" "a@x.com" },
         { users := [{ id := "u1", email := "a@x.com", name := "Ann",
                       password_hash := hash_password 7 "pw", created_at := "t0" }],
           events := [], registrations := [] }) := by
  have h := signup_conflict_or_creates (fun _ _ => [2]) "k"
    { users := [], events := [], registrations := [] }
    { email := "a@x.com", name := "Ann", password := "pw" } "u1" 7 0 "t0"
  exact h.2 (fun u hu => absurd hu (List.not_mem_nil u))

/-- C4: registration keeps the `(event_id, email)` pair unique: a register
for a missing event fails with 404 touching nothing, a successful register
preserves pair-uniqueness of the collection, and registering again with
the same pair — whatever the display name, the caller or the fresh values
are — fails with the 400 duplicate error and leaves the store unchanged. -/
theorem registration_pair_unique
    (s : Store) (current_user : Option TokenPayload) (inp : RegistrationCreate)
    (fresh_id registered_at : String) :
    (s.events.find? (fun e => e.id == inp.event_id) = none →
      register_for_event s current_user inp fresh_id registered_at
        = (.error (httpErr 404 "Event not found"), s))
    ∧ (∀ r s', register_for_event s current_user inp fresh_id registered_at
          = (.ok r, s') →
        pairUnique s.registrations → pairUnique s'.registrations)
    ∧ (∀ r s', register_for_event s current_user inp fresh_id registered_at
          = (.ok r, s') →
        ∀ current_user' name' fresh' at',
          register_for_event s' current_user'
            { event_id := inp.event_id, name := name', email := inp.email }
            fresh' at'
          = (.error (httpErr 400 "Already registered for this event"), s')) := by
  refine ⟨?_, ?_, ?_⟩
  · intro h
    simp [register_for_event, h]
  · intro r s' h huniq
    cases hev : s.events.find? (fun e => e.id == inp.event_id) with
    | none => simp [register_for_event, hev] at h
    | some ev =>
      cases hreg : s.registrations.find?
          (fun g => g.event_id == inp.event_id && g.email == inp.email) with
      | some g => simp [register_for_event, hev, hreg] at h
      | none =>
        simp only [register_for_event, hev, hreg, Prod.mk.injEq, Except.ok.injEq] at h
        obtain ⟨hr, hs⟩ := h
        rw [← hs]
        rw [List.find?_eq_none] at hreg
        unfold pairUnique
        rw [List.pairwise_append]
        refine ⟨huniq, List.pairwise_singleton _ _, ?_⟩
        intro a ha b hb
        rw [List.mem_singleton] at hb
        subst hb
        intro hab
        apply hreg a ha
        simp only [Bool.and_eq_true, beq_iff_eq]
        exact ⟨hab.1, hab.2⟩
  · intro r s' h current_user' name' fresh' at'
    cases hev : s.events.find? (fun e => e.id == inp.event_id) with
    | none => simp [register_for_event, hev] at h
    | some ev =>
      cases hreg : s.registrations.find?
          (fun g => g.event_id == inp.event_id && g.email == inp.email) with
      | some g => simp [register_for_event, hev, hreg] at h
      | none =>
        simp only [register_for_event, hev, hreg, Prod.mk.injEq, Except.ok.injEq] at h
        obtain ⟨hr, hs⟩ := h
        rw [← hs]
        simp [register_for_event, hev, hreg, List.find?_append]

/-- C4 witness: after a successful registration of `(e1, a@x.com)`, the
same pair with a different display name is rejected with the duplicate
error and the store is unchanged. -/
theorem registration_pair_unique_witness :
    register_for_event
      { users := [],
        events := [{ id := "e1", name := "E", date := "d", location := "l",
                     description := "x", created_at := "c" }],
        registrations := [{ id := "r1", event_id := "e1", name := "N",
                            email := "a@x.com", user_id := none,
                            registered_at := "t" }] }
      none { event_id := "e1", name := "Other Name", email := "a@x.com" }
      "r2" "t2"
      = (.error (httpErr 400 "Already registered for this event"),
         { users := [],
           events := [{ id := "e1", name := "E", date := "d", location := "l",
                        description := "x", created_at := "c" }],
           registrations := [{ id := "r1", event_id := "e1", name := "N",
                               email := "a@x.com", user_id := none,
                               registered_at := "t" }] }) := by
  have h := registration_pair_unique
    { users := [],
      events := [{ id := "e1", name := "E", date := "d", location := "l",
                   description := "x", created_at := "c" }],
      registrations := [] }
    none { event_id := "e1", name := "N", email := "a@x.com" } "r1" "t"
  exact h.2.2 _ _ rfl none "Other Name" "r2" "t2"

/-- C5: cancelling an unknown registration id fails with 404; cancelling a
registration whose owner differs from the caller fails with 403 leaving
the store unchanged; the owner's cancel succeeds, after which (the
registration ids being unique) the registration can no longer be found. -/
theorem cancel_registration_ownership
    (s : Store) (registration_id : String) (current_user : TokenPayload) :
    (s.registrations.find? (fun r => r.id == registration_id) = none →
      cancel_registration s registration_id current_user
        = (.error (httpErr 404 "Registration not found"), s))
    ∧ (∀ reg, s.registrations.find? (fun r => r.id == registration_id) = some reg →
        reg.user_id ≠ some current_user.user_id →
        cancel_registration s registration_id current_user
          = (.error (httpErr 403 "Not authorized to cancel this registration"), s))
    ∧ (∀ reg, s.registrations.find? (fun r => r.id == registration_id) = some reg →
        reg.user_id = some current_user.user_id →
        (cancel_registration s registration_id current_user).1
          = .ok "Registration cancelled successfully"
        ∧ ((s.registrations.map Registration.id).Nodup →
            (cancel_registration s registration_id current_user).2.registrations.find?
              (fun r => r.id == registration_id) = none)) := by
  refine ⟨?_, ?_, ?_⟩
  · intro h
    simp [cancel_registration, h]
  · intro reg hreg hne
    simp [cancel_registration, hreg, hne]
  · intro reg hreg hown
    constructor
    · simp [cancel_registration, hreg, hown]
    · intro hnd
      have h2 : (cancel_registration s registration_id current_user).2.registrations
          = s.registrations.eraseP (fun r => r.id == registration_id) := by
        simp [cancel_registration, hreg, hown, delete_one]
      rw [h2]
      exact find?_eraseP_eq_none Registration.id registration_id s.registrations hnd

/-- C5 witness: the owner `u1` cancels their registration `r1`; the call
succeeds and `r1` is unfindable afterwards. -/
theorem cancel_registration_ownership_witness :
    (cancel_registration
        { users := [], events := [],
          registrations := [{ id := "r1", event_id := "e1", name := "N",
                              email := "a@x.com", user_id := some "u1",
                              registered_at := "t" }] }
        "r1" { user_id := "u1", email := "a@x.com", exp := 0 }).1
      = .ok "Registration cancelled successfully"
    ∧ (cancel_registration
        { users := [], events := [],
          registrations := [{ id := "r1", event_id := "e1", name := "N",
                              email := "a@x.com", user_id := some "u1",
                              registered_at := "t" }] }
        "r1" { user_id := "u1", email := "a@x.com", exp := 0 }).2.registrations.find?
          (fun r => r.id == "r1") = none := by
  have h := cancel_registration_ownership
    { users := [], events := [],
      registrations := [{ id := "r1", event_id := "e1", name := "N",
                          email := "a@x.com", user_id := some "u1",
                          registered_at := "t" }] }
    "r1" { user_id := "u1", email := "a@x.com", exp := 0 }
  have h3 := h.2.2 _ rfl rfl
  exact ⟨h3.1, h3.2 (by simp)⟩

/-- C10: a guest registration — one whose `user_id` is absent — can never
be cancelled: for every authenticated caller the ownership check compares
the caller's `user_id` with a missing owner and fails with 403. -/
theorem guest_registration_never_cancellable
    (s : Store) (registration_id : String) (reg : Registration)
    (hreg : s.registrations.find? (fun r => r.id == registration_id) = some reg)
    (hguest : reg.user_id = none) :
    ∀ current_user : TokenPayload,
      cancel_registration s registration_id current_user
        = (.error (httpErr 403 "Not authorized to cancel this registration"), s) := by
  intro cu
  have hne : reg.user_id ≠ some cu.user_id := by
    rw [hguest]
    exact fun h => Option.noConfusion h
  simp [cancel_registration, hreg, hne]

/-- C10 witness: a concrete guest registration rejected for an arbitrary
concrete authenticated caller. -/
theorem guest_registration_never_cancellable_witness :
    cancel_registration
      { users := [], events := [],
        registrations := [{ id := "r1", event_id := "e1", name := "N",
                            email := "a@x.com", user_id := none,
                            registered_at := "t" }] }
      "r1" { user_id := "u9", email := "b@x.com", exp := 0 }
      = (.error (httpErr 403 "Not authorized to cancel this registration"),
         { users := [], events := [],
           registrations := [{ id := "r1", event_id := "e1", name := "N",
                               email := "a@x.com", user_id := none,
                               registered_at := "t" }] }) :=
  guest_registration_never_cancellable
    { users := [], events := [],
      registrations := [{ id := "r1", event_id := "e1", name := "N",
                          email := "a@x.com", user_id := none,
                          registered_at := "t" }] }
    "r1"
    { id := "r1", event_id := "e1", name := "N", email := "a@x.com",
      user_id := none, registered_at := "t" }
    rfl rfl
    { user_id := "u9", email := "b@x.com", exp := 0 }

/-- C6: deleting an existing event removes the event record and, in the
same call, every registration whose `event_id` equals it; with unique
event ids a subsequent get on that id answers 404.  Deleting a
non-existent id answers 404 and leaves the whole store — registrations
included — untouched. -/
theorem delete_event_cascades (s : Store) (event_id : String) :
    (s.events.find? (fun e => e.id == event_id) = none →
      delete_event s event_id = (.error (httpErr 404 "Event not found"), s))
    ∧ (∀ e, s.events.find? (fun f => f.id == event_id) = some e →
        (delete_event s event_id).1 = .ok "Event deleted successfully"
        ∧ (delete_event s event_id).2.events
            = s.events.eraseP (fun f => f.id == event_id)
        ∧ (delete_event s event_id).2.registrations
            = s.registrations.filter (fun r => r.event_id != event_id)
        ∧ (∀ r ∈ (delete_event s event_id).2.registrations, r.event_id ≠ event_id)
        ∧ ((s.events.map Event.id).Nodup →
            get_event (delete_event s event_id).2 event_id
              = .error (httpErr 404 "Event not found"))) := by
  constructor
  · intro h
    rw [List.find?_eq_none] at h
    have hany : s.events.any (fun e => e.id == event_id) = false :=
      List.any_eq_false.mpr h
    have hep : s.events.eraseP (fun e => e.id == event_id) = s.events :=
      List.eraseP_of_forall_not h
    simp [delete_event, delete_one, hany, hep]
  · intro e he
    have hany : s.events.any (fun f => f.id == event_id) = true :=
      List.any_eq_true.mpr ⟨e, List.mem_of_find?_eq_some he,
        List.find?_some (p := fun f : Event => f.id == event_id) he⟩
    have hregs : (delete_event s event_id).2.registrations
        = s.registrations.filter (fun r => r.event_id != event_id) := by
      simp [delete_event, delete_one, hany]
    have hevs : (delete_event s event_id).2.events
        = s.events.eraseP (fun f => f.id == event_id) := by
      simp [delete_event, delete_one, hany]
    refine ⟨by simp [delete_event, delete_one, hany], hevs, hregs, ?_, ?_⟩
    · intro r hr
      rw [hregs] at hr
      have := List.of_mem_filter hr
      simpa using this
    · intro hnd
      have hnone := find?_eraseP_eq_none Event.id event_id s.events hnd
      rw [get_event, hevs]
      rw [show (List.find? (fun f => f.id == event_id)
            (s.events.eraseP (fun f => f.id == event_id))) = none from hnone]

/-- C6 witness: deleting event `e1` from a concrete store succeeds,
removes exactly the registrations referencing `e1`, and a get on `e1`
afterwards answers 404. -/
theorem delete_event_cascades_witness :
    (delete_event
        { users := [],
          events := [{ id := "e1", name := "E", date := "d", location := "l",
                       description := "x", created_at := "c" }],
          registrations := [{ id := "r1", event_id := "e1", name := "N",
                              email := "a@x.com", user_id := none,
                              registered_at := "t" },
                            { id := "r2", event_id := "e2", name := "M",
                              email := "b@x.com", user_id := none,
                              registered_at := "t" }] } "e1").1
      = .ok "Event deleted successfully"
    ∧ get_event
        (delete_event
          { users := [],
            events := [{ id := "e1", name := "E", date := "d", location := "l",
                         description := "x", created_at := "c" }],
            registrations := [{ id := "r1", event_id := "e1", name := "N",
                                email := "a@x.com", user_id := none,
                                registered_at := "t" },
                              { id := "r2", event_id := "e2", name := "M",
                                email := "b@x.com", user_id := none,
                                registered_at := "t" }] } "e1").2 "e1"
      = .error (httpErr 404 "Event not found") := by
  have h := delete_event_cascades
    { users := [],
      events := [{ id := "e1", name := "E", date := "d", location := "l",
                   description := "x", created_at := "c" }],
      registrations := [{ id := "r1", event_id := "e1", name := "N",
                          email := "a@x.com", user_id := none,
                          registered_at := "t" },
                        { id := "r2", event_id := "e2", name := "M",
                          email := "b@x.com", user_id := none,
                          registered_at := "t" }] } "e1"
  have h2 := h.2 _ rfl
  exact ⟨h2.1, h2.2.2.2.2 (by simp)⟩

/-- C9: `update_profile` rejects an empty patch with the 400
`No data to update` error; rejects with the 400 `Email already in use`
conflict exactly when the patch changes the email to one held by a
different user (changing it to an email held by no other user — in
particular the caller's own current one — is not a conflict); and on
success rewrites exactly the caller's user document with the patched
fields, every other document and every unpatched field — `password_hash`
included — being left unchanged. -/
theorem update_profile_frame_and_conflicts
    (s : Store) (patch : UserProfileUpdate) (current_user : TokenPayload) :
    (patch.name = none → patch.email = none →
      update_profile s patch current_user
        = (.error (httpErr 400 "No data to update"), s))
    ∧ (∀ e, patch.email = some e →
        (∃ v, v ∈ s.users ∧ v.email = e ∧ v.id ≠ current_user.user_id) →
        update_profile s patch current_user
          = (.error (httpErr 400 "Email already in use"), s))
    ∧ (∀ u : User,
        (apply_profile_patch patch u).password_hash = u.password_hash
        ∧ (apply_profile_patch patch u).id = u.id
        ∧ (apply_profile_patch patch u).created_at = u.created_at
        ∧ (apply_profile_patch patch u).name = patch.name.getD u.name
        ∧ (apply_profile_patch patch u).email = patch.email.getD u.email)
    ∧ (¬(patch.name = none ∧ patch.email = none) →
        (∀ e, patch.email = some e → ∀ v, v ∈ s.users → v.email = e →
          v.id = current_user.user_id) →
        (∃ pub, (update_profile s patch current_user).1 = .ok pub)
        ∧ (∀ u, s.users.find? (fun v => v.id == current_user.user_id) = some u →
            ∃ l₁ l₂, s.users = l₁ ++ u :: l₂ ∧
              (update_profile s patch current_user).2.users
                = l₁ ++ apply_profile_patch patch u :: l₂))
    ∧ (∀ e u, patch.email = some e → (s.users.map User.email).Nodup →
        s.users.find? (fun v => v.id == current_user.user_id) = some u →
        u.email = e →
        ∃ pub, (update_profile s patch current_user).1 = .ok pub) := by
  refine ⟨?_, ?_, ?_, ?_, ?_⟩
  · intro hn he
    simp [update_profile, hn, he]
  · intro e he hex
    obtain ⟨v, hv, hve, hvid⟩ := hex
    have hcond : ¬(patch.name = none ∧ patch.email = none) := by
      intro hc
      rw [he] at hc
      exact Option.noConfusion hc.2
    have hfs : (s.users.find?
        (fun u => u.email == e && u.id != current_user.user_id)).isSome := by
      rw [List.find?_isSome]
      exact ⟨v, hv, by simp [hve, bne_iff_ne, hvid]⟩
    unfold update_profile
    rw [if_neg hcond]
    simp only [he]
    simp [hfs]
  · intro u
    exact ⟨rfl, rfl, rfl, rfl, rfl⟩
  · intro hcond hnoc
    have hfnone : ∀ e, patch.email = some e →
        s.users.find?
          (fun v => v.email == e && v.id != current_user.user_id) = none := by
      intro e he
      rw [List.find?_eq_none]
      intro v hv hpred
      rw [Bool.and_eq_true, beq_iff_eq, bne_iff_ne] at hpred
      exact hpred.2 (hnoc e he v hv hpred.1)
    have hres : update_profile s patch current_user
        = (.ok (((update_one (fun v => v.id == current_user.user_id)
              (apply_profile_patch patch) s.users).find?
                (fun v => v.id == current_user.user_id)).map User.toPublic),
           Store.mk (update_one (fun v => v.id == current_user.user_id)
              (apply_profile_patch patch) s.users) s.events s.registrations) := by
      unfold update_profile
      rw [if_neg hcond]
      cases hpe : patch.email with
      | none => simp [hpe]
      | some e => simp [hpe, hfnone e hpe]
    constructor
    · exact ⟨_, by rw [hres]⟩
    · intro u hfind
      obtain ⟨l₁, l₂, hsplit, hnotp, hupd⟩ :=
        update_one_split (fun v => v.id == current_user.user_id)
          (apply_profile_patch patch) hfind
      exact ⟨l₁, l₂, hsplit, by rw [hres]; exact hupd⟩
  · intro e u he hnd hfind hue
    have hcond : ¬(patch.name = none ∧ patch.email = none) := by
      intro hc
      rw [he] at hc
      exact Option.noConfusion hc.2
    have hid : u.id = current_user.user_id := by
      have := List.find?_some (p := fun v : User => v.id == current_user.user_id) hfind
      simpa using this
    have hmem := List.mem_of_find?_eq_some hfind
    have hfnone : s.users.find?
        (fun v => v.email == e && v.id != current_user.user_id) = none := by
      rw [List.find?_eq_none]
      intro v hv hpred
      rw [Bool.and_eq_true, beq_iff_eq, bne_iff_ne] at hpred
      have hvu : v = u := List.inj_on_of_nodup_map hnd hv hmem (by rw [hpred.1, hue])
      exact hpred.2 (hvu ▸ hid)
    have hres : update_profile s patch current_user
        = (.ok (((update_one (fun v => v.id == current_user.user_id)
              (apply_profile_patch patch) s.users).find?
                (fun v => v.id == current_user.user_id)).map User.toPublic),
           Store.mk (update_one (fun v => v.id == current_user.user_id)
              (apply_profile_patch patch) s.users) s.events s.registrations) := by
      unfold update_profile
      rw [if_neg hcond]
      simp [he, hfnone]
    exact ⟨_, by rw [hres]⟩

/-- C9 witness: patching only the name of the sole user succeeds and
rewrites exactly that document with the patched name. -/
theorem update_profile_frame_and_conflicts_witness :
    (∃ pub, (update_profile
        { users := [{ id := "u1", email := "a@x.com", name := "Ann",
                      password_hash := hash_password 7 "pw", created_at := "t0" }],
          events := [], registrations := [] }
        { name := some "Bob", email := none }
        { user_id := "u1", email := "a@x.com", exp := 0 }).1 = .ok pub)
    ∧ ∃ l₁ l₂,
        [({ id := "u1", email := "a@x.com", name := "Ann",
            password_hash := hash_password 7 "pw", created_at := "t0" } : User)]
          = l₁ ++ { id := "u1", email := "a@x.com", name := "Ann",
                    password_hash := hash_password 7 "pw", created_at := "t0" } :: l₂
        ∧ (update_profile
            { users := [{ id := "u1", email := "a@x.com", name := "Ann",
                          password_hash := hash_password 7 "pw", created_at := "t0" }],
              events := [], registrations := [] }
            { name := some "Bob", email := none }
            { user_id := "u1", email := "a@x.com", exp := 0 }).2.users
          = l₁ ++ apply_profile_patch { name := some "Bob", email := none }
              { id := "u1", email := "a@x.com", name := "Ann",
                password_hash := hash_password 7 "pw", created_at := "t0" } :: l₂ := by
  have h := update_profile_frame_and_conflicts
    { users := [{ id := "u1", email := "a@x.com", name := "Ann",
                  password_hash := hash_password 7 "pw", created_at := "t0" }],
      events := [], registrations := [] }
    { name := some "Bob", email := none }
    { user_id := "u1", email := "a@x.com", exp := 0 }
  have h4 := h.2.2.2.1 (by simp) (by intro e he; exact Option.noConfusion he)
  exact ⟨h4.1, h4.2 _ rfl⟩
